import Mathlib

/-!
Verification of the yantraai review/routing core against its specification.

The definitions below are shallow embeddings of the Python source:
* `app/crud/review.py` (review queue and human-review workflow),
* `app/services/k_eval/selective_classifier.py` (tiered routing),
* `app/services/k_eval/ensemble_aggregator.py` (confidence aggregation),
* `app/services/k_eval/temperature_scaling.py` (post-hoc calibration),
* `app/services/k_ocr/multi_track_ocr.py` (fallback OCR orchestration).

Machine floats are modelled as exact rationals (`ℚ`) where the code only
compares and adds decimal constants, and as reals (`ℝ`) where the code uses
`log` / `exp` / `sqrt`.  Database rows become explicit lists; the SQLAlchemy
query in `get_review_queue` (filter, `ORDER BY created_at DESC`, offset,
limit) becomes a filter followed by a stable sort on `created_at`.
-/

/-- A persisted `Region` row (`app/models/region.py`), restricted to the
columns the review workflow reads or writes.  `created_at` is an abstract
timestamp, ordered like the database column. -/
structure RegionS where
  id : String
  job_id : String
  normalized_text : Option String
  trust_score : ℚ
  human_verified : Bool
  verified_value : Option String
  created_at : ℚ
deriving DecidableEq, Repr

/-- The before/after snapshot recorded by `ReviewCRUD.review_region`. -/
structure RegionSnapshot where
  normalized_text : Option String
  trust_score : ℚ
  human_verified : Bool
  verified_value : Option String
deriving DecidableEq, Repr

/-- Capture the snapshot dict built in `review_region`. -/
def snapshot (r : RegionS) : RegionSnapshot :=
  { normalized_text := r.normalized_text
    trust_score := r.trust_score
    human_verified := r.human_verified
    verified_value := r.verified_value }

/-- An `AuditLog` row (`app/models/audit.py`). -/
structure AuditEntry where
  job_id : String
  region_id : String
  user_id : String
  action : String
  before : RegionSnapshot
  after : RegionSnapshot
  notes : String
deriving DecidableEq, Repr

/-- The database state the review workflow touches: the `regions` table and
the append-only `audit_logs` table. -/
structure DB where
  regions : List RegionS
  audits : List AuditEntry
deriving DecidableEq, Repr

/-- `settings.TRUST_SCORE_THRESHOLD` (`app/core/config.py`, default `0.6`). -/
def TRUST_SCORE_THRESHOLD : ℚ := 6/10

/-- The `ORDER BY created_at DESC` comparison used by `get_review_queue`. -/
def createdDesc (a b : RegionS) : Prop := b.created_at ≤ a.created_at

instance : DecidableRel createdDesc :=
  fun a b => inferInstanceAs (Decidable (b.created_at ≤ a.created_at))

instance : IsTotal RegionS createdDesc :=
  ⟨fun a b => le_total b.created_at a.created_at⟩

instance : IsTrans RegionS createdDesc :=
  ⟨fun _ _ _ hab hbc => le_trans hbc hab⟩

/-- The filter of `ReviewCRUD.get_review_queue`:
`trust_score < settings.TRUST_SCORE_THRESHOLD AND human_verified == False`. -/
def reviewQueueFilter (r : RegionS) : Bool :=
  decide (r.trust_score < TRUST_SCORE_THRESHOLD) && !r.human_verified

/-- The queue built by `ReviewCRUD.get_review_queue` before pagination:
filter the regions, then `ORDER BY created_at DESC`. -/
def review_queue_regions (db : DB) : List RegionS :=
  List.insertionSort createdDesc (db.regions.filter reviewQueueFilter)

/-- `ReviewCRUD.get_review_queue` with its `offset`/`limit` pagination. -/
def get_review_queue (db : DB) (skip : Nat) (limit : Nat) : List RegionS :=
  ((review_queue_regions db).drop skip).take limit

/-- Python truthiness of the `verified_value` argument: `None` and the empty
string are falsy. -/
def truthy : Option String → Bool
  | none => false
  | some s => !(s == "")

/-- The `if action == "correct" and verified_value / elif "approve" /
elif "skip"` block of `ReviewCRUD.review_region`. -/
def apply_action (action : String) (verified_value : Option String)
    (r : RegionS) : RegionS :=
  if action == "correct" && truthy verified_value then
    match verified_value with
    | some v =>
      { r with normalized_text := some v, verified_value := some v, trust_score := 1 }
    | none => r
  else if action == "approve" then
    { r with trust_score := max r.trust_score (9/10) }
  else
    r

/-- `ReviewCRUD.review_region`: fetch the region by id; reject (return
`none`, no state change) when it is absent or already `human_verified`;
otherwise snapshot, apply the action, set `human_verified := true`
unconditionally, snapshot again, and append one audit entry. -/
def review_region (db : DB) (region_id : String) (user_id : String)
    (verified_value : Option String) (action : String) :
    Option AuditEntry × DB :=
  match db.regions.find? (fun r => r.id == region_id) with
  | none => (none, db)
  | some region =>
    if region.human_verified then (none, db)
    else
      let before_state := snapshot region
      let updated :=
        { apply_action action verified_value region with human_verified := true }
      let after_state := snapshot updated
      let entry : AuditEntry :=
        { job_id := region.job_id
          region_id := region_id
          user_id := user_id
          action := action
          before := before_state
          after := after_state
          notes := "Region reviewed with action: " ++ action }
      (some entry,
        { regions := db.regions.map (fun r => if r.id == region_id then updated else r)
          audits := db.audits ++ [entry] })

/-! ### Fixtures for the review-workflow claims -/

/-- A low-trust, unreviewed region created early. -/
def regionLowTrustOld : RegionS :=
  { id := "r1", job_id := "j1", normalized_text := some "alpha", trust_score := 1/10,
    human_verified := false, verified_value := none, created_at := 0 }

/-- A mid-trust, unreviewed region created later. -/
def regionMidTrustNew : RegionS :=
  { id := "r2", job_id := "j1", normalized_text := some "beta", trust_score := 1/2,
    human_verified := false, verified_value := none, created_at := 1 }

/-- Two queue-eligible regions whose creation order disagrees with their
trust-score order. -/
def dbC1 : DB := { regions := [regionLowTrustOld, regionMidTrustNew], audits := [] }

/-- C1 counterexample: on `dbC1` the queue is `[r2, r1]` (newest first), whose
trust scores `[1/2, 1/10]` are not ascending, refuting the claimed
ascending-by-trust_score ordering. -/
theorem review_queue_not_sorted_by_trust :
    ¬ List.Pairwise (fun a b : RegionS => a.trust_score ≤ b.trust_score)
        (review_queue_regions dbC1) := by
  have hq : review_queue_regions dbC1 = [regionMidTrustNew, regionLowTrustOld] := by
    norm_num [review_queue_regions, dbC1, List.insertionSort, List.orderedInsert,
      List.filter, reviewQueueFilter, createdDesc, TRUST_SCORE_THRESHOLD,
      regionLowTrustOld, regionMidTrustNew]
  rw [hq]
  intro h
  have h1 := (List.pairwise_cons.mp h).1 regionLowTrustOld (by simp)
  norm_num [regionMidTrustNew, regionLowTrustOld] at h1

/-- C1 (amended): the pre-pagination review queue contains exactly the regions
with `trust_score < TRUST_SCORE_THRESHOLD` and `human_verified = false`, and
its items are ordered descending by `created_at` (most recent first), as the
`ORDER BY created_at DESC` in `get_review_queue` dictates. -/
theorem review_queue_filter_and_created_at_order (db : DB) :
    (∀ r : RegionS, r ∈ review_queue_regions db ↔
      (r ∈ db.regions ∧ r.trust_score < TRUST_SCORE_THRESHOLD ∧
        r.human_verified = false)) ∧
    List.Sorted createdDesc (review_queue_regions db) := by
  constructor
  · intro r
    unfold review_queue_regions
    rw [List.mem_insertionSort, List.mem_filter]
    simp [reviewQueueFilter, and_assoc]
  · exact List.sorted_insertionSort createdDesc _

/-- An already-verified region, used to exercise the NotFound path. -/
def regionVerified : RegionS :=
  { id := "r3", job_id := "j2", normalized_text := some "gamma", trust_score := 1/2,
    human_verified := true, verified_value := some "gamma", created_at := 2 }

/-- Database fixture for the idempotent-rejection claim. -/
def dbC3 : DB := { regions := [regionVerified], audits := [] }

/-- C3: when the region is absent, or present but already `human_verified`,
`review_region` returns `None` (NotFound) for any action and user, and both
the regions table and the audit log are left unchanged. -/
theorem review_absent_or_verified_rejected (db : DB) (rid uid : String)
    (vv : Option String) (action : String)
    (h : db.regions.find? (fun r => r.id == rid) = none ∨
      ∃ r : RegionS, db.regions.find? (fun r => r.id == rid) = some r ∧
        r.human_verified = true) :
    review_region db rid uid vv action = (none, db) := by
  unfold review_region
  rcases h with h | ⟨r, hr, hv⟩
  · rw [h]
  · rw [hr]
    simp [hv]

/-- C3 witness: a second review of the already-verified `regionVerified` is
rejected without mutation. -/
theorem review_absent_or_verified_rejected_witness :
    (dbC3.regions.find? (fun r => r.id == "r3") = some regionVerified ∧
      regionVerified.human_verified = true) ∧
    review_region dbC3 "r3" "u1" none "approve" = (none, dbC3) :=
  ⟨⟨by simp [dbC3, List.find?, regionVerified], rfl⟩,
    review_absent_or_verified_rejected dbC3 "r3" "u1" none "approve"
      (Or.inr ⟨regionVerified, by simp [dbC3, List.find?, regionVerified], rfl⟩)⟩

/-- An unreviewed region used for the correct-action claims. -/
def regionUnverified : RegionS :=
  { id := "r1", job_id := "j1", normalized_text := some "alpha", trust_score := 1/2,
    human_verified := false, verified_value := none, created_at := 0 }

/-- Database fixture with a single unreviewed region. -/
def dbC2 : DB := { regions := [regionUnverified], audits := [] }

/-- C2 counterexample: a `correct` action with a missing `verified_value` is
not rejected before mutating state: on `dbC2` it flips the region's
`human_verified` flag to `true` and writes one audit entry. -/
theorem review_correct_missing_value_counterexample :
    ((review_region dbC2 "r1" "u1" none "correct").2.regions.map
        RegionS.human_verified = [true]) ∧
    (review_region dbC2 "r1" "u1" none "correct").2.audits.length = 1 := by
  constructor <;>
    simp [review_region, dbC2, regionUnverified, List.find?, apply_action, truthy]

/-- C2 (amended): a `correct` action with a missing `verified_value` on an
unreviewed region is silently accepted: `normalized_text`, `trust_score` and
`verified_value` stay unchanged, but `human_verified` is set to `true` and an
audit entry is appended. -/
theorem review_correct_missing_value_marks_verified (db : DB) (rid uid : String)
    (r : RegionS)
    (hr : db.regions.find? (fun x => x.id == rid) = some r)
    (hv : r.human_verified = false) :
    ∃ e : AuditEntry,
      (review_region db rid uid none "correct").1 = some e ∧
      e.after.normalized_text = r.normalized_text ∧
      e.after.trust_score = r.trust_score ∧
      e.after.verified_value = r.verified_value ∧
      e.after.human_verified = true ∧
      (review_region db rid uid none "correct").2.audits = db.audits ++ [e] := by
  unfold review_region
  rw [hr]
  simp [hv, apply_action, truthy, snapshot]

/-- C2 witness: the amended behaviour observed on the concrete `dbC2`. -/
theorem review_correct_missing_value_marks_verified_witness :
    (dbC2.regions.find? (fun x => x.id == "r1") = some regionUnverified ∧
      regionUnverified.human_verified = false) ∧
    ∃ e : AuditEntry,
      (review_region dbC2 "r1" "u1" none "correct").1 = some e ∧
      e.after.normalized_text = regionUnverified.normalized_text ∧
      e.after.trust_score = regionUnverified.trust_score ∧
      e.after.verified_value = regionUnverified.verified_value ∧
      e.after.human_verified = true ∧
      (review_region dbC2 "r1" "u1" none "correct").2.audits = dbC2.audits ++ [e] :=
  ⟨⟨by simp [dbC2, List.find?, regionUnverified], rfl⟩,
    review_correct_missing_value_marks_verified dbC2 "r1" "u1" regionUnverified
      (by simp [dbC2, List.find?, regionUnverified]) rfl⟩

/-- Replacing the first region matched by `find?` with a region of the same id
makes `find?` return the replacement on the updated table. -/
theorem find_map_update (l : List RegionS) (rid : String) (u r : RegionS)
    (hid : u.id = r.id)
    (h : l.find? (fun x => x.id == rid) = some r) :
    (l.map (fun x => if x.id == rid then u else x)).find? (fun x => x.id == rid)
      = some u := by
  induction l with
  | nil => simp at h
  | cons a l ih =>
    by_cases ha : (a.id == rid) = true
    · simp only [List.find?, ha] at h
      have har : a = r := by simpa using h
      have hu : (u.id == rid) = true := by
        have hua : u.id = a.id := by rw [hid, ← har]
        rw [hua]
        exact ha
      simp only [List.map_cons, ha, if_true, List.find?, hu]
    · rw [Bool.not_eq_true] at ha
      simp only [List.find?, ha] at h
      simp only [List.map_cons, ha, Bool.false_eq_true, if_false, List.find?]
      exact ih h

/-- Database fixture for the correct-with-value claim. -/
def dbC8 : DB := { regions := [regionMidTrustNew], audits := [] }

/-- C8: on an unreviewed region, a `correct` action with a non-empty
`verified_value` `v` sets `normalized_text = v`, `verified_value = v`,
`trust_score = 1` and `human_verified = true`; the audit entry's before
snapshot is the prior state, and when `v` differs from the prior
`normalized_text` the before/after `normalized_text` differ while the after
snapshot's `trust_score` is `1`. -/
theorem review_correct_sets_fields (db : DB) (rid uid v : String) (r : RegionS)
    (hr : db.regions.find? (fun x => x.id == rid) = some r)
    (hv : r.human_verified = false)
    (hne : v ≠ "") :
    ∃ e : AuditEntry,
      (review_region db rid uid (some v) "correct").1 = some e ∧
      e.before = snapshot r ∧
      e.after.normalized_text = some v ∧
      e.after.verified_value = some v ∧
      e.after.trust_score = 1 ∧
      e.after.human_verified = true ∧
      (some v ≠ r.normalized_text → e.before.normalized_text ≠ e.after.normalized_text) ∧
      (review_region db rid uid (some v) "correct").2.regions.find?
          (fun x => x.id == rid)
        = some { r with normalized_text := some v, verified_value := some v,
                        trust_score := 1, human_verified := true } := by
  have hupd : apply_action "correct" (some v) r
      = { r with normalized_text := some v, verified_value := some v, trust_score := 1 } := by
    simp [apply_action, truthy, hne]
  unfold review_region
  rw [hr]
  simp only [hv, Bool.false_eq_true, if_false, hupd]
  refine ⟨_, rfl, rfl, rfl, rfl, rfl, rfl, ?_, ?_⟩
  · intro hvne
    simpa [snapshot] using fun hcontra => hvne hcontra.symm
  · exact find_map_update db.regions rid _ r rfl hr

/-- C8 witness: correcting `regionMidTrustNew` with value `"fixed"` on the
concrete `dbC8`. -/
theorem review_correct_sets_fields_witness :
    (dbC8.regions.find? (fun x => x.id == "r2") = some regionMidTrustNew ∧
      regionMidTrustNew.human_verified = false ∧ "fixed" ≠ "") ∧
    ∃ e : AuditEntry,
      (review_region dbC8 "r2" "u1" (some "fixed") "correct").1 = some e ∧
      e.before = snapshot regionMidTrustNew ∧
      e.after.normalized_text = some "fixed" ∧
      e.after.verified_value = some "fixed" ∧
      e.after.trust_score = 1 ∧
      e.after.human_verified = true ∧
      (some "fixed" ≠ regionMidTrustNew.normalized_text →
        e.before.normalized_text ≠ e.after.normalized_text) ∧
      (review_region dbC8 "r2" "u1" (some "fixed") "correct").2.regions.find?
          (fun x => x.id == "r2")
        = some { regionMidTrustNew with
            normalized_text := some "fixed", verified_value := some "fixed",
            trust_score := 1, human_verified := true } :=
  ⟨⟨by simp [dbC8, List.find?, regionMidTrustNew], rfl, by simp⟩,
    review_correct_sets_fields dbC8 "r2" "u1" "fixed" regionMidTrustNew
      (by simp [dbC8, List.find?, regionMidTrustNew]) rfl (by simp)⟩

/-! ### SelectiveClassifier (`app/services/k_eval/selective_classifier.py`) -/

/-- The four routing thresholds of `SelectiveClassifier`. -/
structure Thresholds (α : Type) where
  auto_accept : α
  light_review : α
  full_review : α
  manual_correction : α
deriving DecidableEq, Repr

/-- The constructor's default thresholds. -/
def defaultThresholds (α : Type) [LinearOrderedField α] : Thresholds α :=
  { auto_accept := 9/10, light_review := 8/10, full_review := 7/10,
    manual_correction := 0 }

/-- `SelectiveClassifier._get_domain_thresholds` with the default
`domain_overrides` map: copy the base thresholds, then update exactly the
keys present in the domain's override dict (`medical` and `logistics` each
override `auto_accept` and `light_review` only). -/
def domainThresholds (α : Type) [LinearOrderedField α] (domain : String) :
    Thresholds α :=
  if domain = "medical" then
    { defaultThresholds α with auto_accept := 95/100, light_review := 85/100 }
  else if domain = "logistics" then
    { defaultThresholds α with auto_accept := 85/100, light_review := 75/100 }
  else
    defaultThresholds α

/-- The routing-decision dict returned by `SelectiveClassifier.classify`.
The `reason` string and `thresholds_used`/`domain` echo are projected away;
the anomaly short-circuit's dict carries no `review_percentage` key, hence
the `Option`. -/
structure RoutingDecision (α : Type) where
  review_action : String
  confidence : α
  adjusted_confidence : α
  priority : String
  needs_review : Bool
  review_percentage : Option α
  penalties_applied : List String
deriving DecidableEq, Repr

/-- `SelectiveClassifier.classify` (default thresholds and overrides):
anomaly short-circuit, OOD penalty of `0.15`, clamp to `[0,1]`, then the
four-way descending threshold comparison. -/
def classify (α : Type) [LinearOrderedField α] (confidence : α) (domain : String)
    (is_anomalous : Bool) (is_ood : Bool) : RoutingDecision α :=
  let thresholds := domainThresholds α domain
  if is_anomalous then
    { review_action := "FULL_REVIEW", confidence := confidence,
      adjusted_confidence := confidence, priority := "HIGH", needs_review := true,
      review_percentage := none, penalties_applied := ["anomaly_detected"] }
  else
    let adjusted0 := if is_ood then confidence - 15/100 else confidence
    let penalties : List String := if is_ood then ["ood_detected"] else []
    let adjusted := max 0 (min 1 adjusted0)
    if adjusted ≥ thresholds.auto_accept then
      { review_action := "AUTO_ACCEPT", confidence := confidence,
        adjusted_confidence := adjusted, priority := "NONE", needs_review := false,
        review_percentage := some 0, penalties_applied := penalties }
    else if adjusted ≥ thresholds.light_review then
      { review_action := "LIGHT_REVIEW", confidence := confidence,
        adjusted_confidence := adjusted, priority := "LOW", needs_review := true,
        review_percentage := some 10, penalties_applied := penalties }
    else if adjusted ≥ thresholds.full_review then
      { review_action := "FULL_REVIEW", confidence := confidence,
        adjusted_confidence := adjusted, priority := "HIGH", needs_review := true,
        review_percentage := some 100, penalties_applied := penalties }
    else
      { review_action := "MANUAL_CORRECTION", confidence := confidence,
        adjusted_confidence := adjusted, priority := "CRITICAL", needs_review := true,
        review_percentage := some 100, penalties_applied := penalties }

/-- The four confidence bands induced by a resolved threshold set, in the
order the code tests them. -/
def band (t : Thresholds ℚ) (a : ℚ) : Fin 4 → Prop
  | 0 => a ≥ t.auto_accept
  | 1 => t.light_review ≤ a ∧ a < t.auto_accept
  | 2 => t.full_review ≤ a ∧ a < t.light_review
  | 3 => a < t.full_review

/-- Every resolved threshold set (any domain string) is ordered
`full_review ≤ light_review ≤ auto_accept`. -/
theorem domainThresholds_ordered (domain : String) :
    (domainThresholds ℚ domain).full_review ≤ (domainThresholds ℚ domain).light_review ∧
    (domainThresholds ℚ domain).light_review ≤ (domainThresholds ℚ domain).auto_accept := by
  unfold domainThresholds defaultThresholds
  split_ifs <;> norm_num

/-- Under ordered thresholds the four bands are contiguous, disjoint and
exhaustive: every value lies in exactly one band. -/
theorem band_exactly_one (t : Thresholds ℚ) (a : ℚ)
    (h1 : t.full_review ≤ t.light_review) (h2 : t.light_review ≤ t.auto_accept) :
    ∃! i : Fin 4, band t a i := by
  rcases le_or_lt t.auto_accept a with h0 | h0
  · refine ⟨0, by simpa [band] using h0, fun j hj => ?_⟩
    fin_cases j
    · rfl
    · exfalso; simp [band] at hj; linarith
    · exfalso; simp [band] at hj; linarith
    · exfalso; simp [band] at hj; linarith
  · rcases le_or_lt t.light_review a with hl | hl
    · refine ⟨1, by simp [band]; exact ⟨hl, h0⟩, fun j hj => ?_⟩
      fin_cases j
      · exfalso; simp [band] at hj; linarith
      · rfl
      · exfalso; simp [band] at hj; linarith
      · exfalso; simp [band] at hj; linarith
    · rcases le_or_lt t.full_review a with hf | hf
      · refine ⟨2, by simp [band]; exact ⟨hf, hl⟩, fun j hj => ?_⟩
        fin_cases j
        · exfalso; simp [band] at hj; linarith
        · exfalso; simp [band] at hj; linarith
        · rfl
        · exfalso; simp [band] at hj; linarith
      · refine ⟨3, by simpa [band] using hf, fun j hj => ?_⟩
        fin_cases j
        · exfalso; simp [band] at hj; linarith
        · exfalso; simp [band] at hj; linarith
        · exfalso; simp [band] at hj; linarith
        · rfl

/-- C6: for every confidence in `[0,1]`, every domain and every combination
of anomaly/OOD flags, `classify` returns exactly one of the four review
actions, and the four threshold bands of the resolved thresholds are
contiguous and exhaustive: the adjusted confidence lies in exactly one. -/
theorem classify_action_exhaustive (c : ℚ) (domain : String)
    (is_anomalous is_ood : Bool) (h0 : 0 ≤ c) (h1 : c ≤ 1) :
    ((classify ℚ c domain is_anomalous is_ood).review_action = "AUTO_ACCEPT" ∨
     (classify ℚ c domain is_anomalous is_ood).review_action = "LIGHT_REVIEW" ∨
     (classify ℚ c domain is_anomalous is_ood).review_action = "FULL_REVIEW" ∨
     (classify ℚ c domain is_anomalous is_ood).review_action = "MANUAL_CORRECTION") ∧
    (∃! i : Fin 4,
      band (domainThresholds ℚ domain)
        ((classify ℚ c domain is_anomalous is_ood).adjusted_confidence) i) := by
  constructor
  · show (match classify ℚ c domain is_anomalous is_ood with
      | d => d.review_action = "AUTO_ACCEPT" ∨ d.review_action = "LIGHT_REVIEW" ∨
          d.review_action = "FULL_REVIEW" ∨ d.review_action = "MANUAL_CORRECTION")
    unfold classify
    dsimp only
    split_ifs <;> simp
  · exact band_exactly_one _ _ (domainThresholds_ordered domain).1
      (domainThresholds_ordered domain).2

/-- C6 witness: the concrete call at confidence `1/2`, domain `general`. -/
theorem classify_action_exhaustive_witness :
    ((0:ℚ) ≤ 1/2 ∧ (1:ℚ)/2 ≤ 1) ∧
    (((classify ℚ (1/2) "general" false false).review_action = "AUTO_ACCEPT" ∨
      (classify ℚ (1/2) "general" false false).review_action = "LIGHT_REVIEW" ∨
      (classify ℚ (1/2) "general" false false).review_action = "FULL_REVIEW" ∨
      (classify ℚ (1/2) "general" false false).review_action = "MANUAL_CORRECTION") ∧
     (∃! i : Fin 4,
       band (domainThresholds ℚ "general")
         ((classify ℚ (1/2) "general" false false).adjusted_confidence) i)) :=
  ⟨⟨by norm_num, by norm_num⟩,
    classify_action_exhaustive (1/2) "general" false false (by norm_num) (by norm_num)⟩

/-! ### EnsembleAggregator (`app/services/k_eval/ensemble_aggregator.py`) -/

/-- `np.var(confidences)`: population variance of a list. -/
noncomputable def listVariance (xs : List ℝ) : ℝ :=
  ((xs.map (fun x => (x - xs.sum / xs.length) ^ 2)).sum) / xs.length

/-- `np.average(confidences, weights)`: weighted mean normalised by the
weight sum. -/
noncomputable def weightedAverage (xs ws : List ℝ) : ℝ :=
  (List.zipWith (fun x w => x * w) xs ws).sum / ws.sum

/-- The `weights = weights / weights.sum()` normalisation performed by
`aggregate_confidences` when weights are supplied. -/
noncomputable def normalizeWeights (ws : List ℝ) : List ℝ :=
  ws.map (fun w => w / ws.sum)

/-- `EnsembleAggregator._aggregate_variance_weighted`:
`weighted_mean − variance_penalty · std_dev`, clamped to `[0,1]`. -/
noncomputable def aggregate_variance_weighted (confidences weights : List ℝ)
    (variance_penalty : ℝ) : ℝ :=
  let mean_conf := weightedAverage confidences weights
  let std_dev := Real.sqrt (listVariance confidences)
  max 0 (min 1 (mean_conf - variance_penalty * std_dev))

/-- `aggregate_confidences` on the default variance_weighted path with
caller-supplied weights: normalise the weights, then aggregate. -/
noncomputable def aggregate_confidences_vw (confidences weights : List ℝ)
    (variance_penalty : ℝ) : ℝ :=
  aggregate_variance_weighted confidences (normalizeWeights weights)
    variance_penalty

/-- On domain `general` with both flags off and a confidence in
`[0, full_review)`, `classify` routes to MANUAL_CORRECTION with priority
CRITICAL and review percentage 100. -/
theorem classify_general_low (x : ℝ) (h0 : 0 ≤ x) (h7 : x < 7/10) :
    (classify ℝ x "general" false false).review_action = "MANUAL_CORRECTION" ∧
    (classify ℝ x "general" false false).priority = "CRITICAL" ∧
    (classify ℝ x "general" false false).review_percentage = some 100 := by
  have hx1 : x ≤ 1 := by linarith
  have hclamp : max 0 (min 1 x) = x := by
    rw [min_eq_right hx1, max_eq_right h0]
  have ht : domainThresholds ℝ "general" = defaultThresholds ℝ := by
    simp [domainThresholds]
  unfold classify
  dsimp only
  rw [ht]
  simp only [defaultThresholds, hclamp, Bool.false_eq_true, if_false]
  split_ifs with hA hB hC
  · exfalso; rw [ge_iff_le] at hA; linarith
  · exfalso; rw [ge_iff_le] at hB; linarith
  · exfalso; rw [ge_iff_le] at hC; linarith
  · exact ⟨rfl, rfl, rfl⟩

/-- C5 (Scenario B): for confidences `[0.9, 0.5, 0.5]` and weights
`[0.4, 0.35, 0.25]` under the default variance_weighted method with penalty
`0.15`: the weighted mean is exactly `0.66`, the unweighted variance is
`8/225 ≈ 0.0356`, the standard deviation is `≈ 0.1886`, the aggregate is
`≈ 0.6317`, and routing that aggregate in domain `general` with default
thresholds yields MANUAL_CORRECTION, priority CRITICAL, review percentage
`100`. -/
theorem scenarioB_manual_correction :
    weightedAverage [9/10, 1/2, 1/2] (normalizeWeights [4/10, 35/100, 25/100])
      = 33/50 ∧
    listVariance [9/10, 1/2, 1/2] = 8/225 ∧
    |listVariance [9/10, 1/2, 1/2] - 356/10000| < 1/10000 ∧
    |Real.sqrt (listVariance [9/10, 1/2, 1/2]) - 1886/10000| < 1/10000 ∧
    |aggregate_confidences_vw [9/10, 1/2, 1/2] [4/10, 35/100, 25/100] (15/100)
        - 6317/10000| < 1/10000 ∧
    (classify ℝ
        (aggregate_confidences_vw [9/10, 1/2, 1/2] [4/10, 35/100, 25/100] (15/100))
        "general" false false).review_action = "MANUAL_CORRECTION" ∧
    (classify ℝ
        (aggregate_confidences_vw [9/10, 1/2, 1/2] [4/10, 35/100, 25/100] (15/100))
        "general" false false).priority = "CRITICAL" ∧
    (classify ℝ
        (aggregate_confidences_vw [9/10, 1/2, 1/2] [4/10, 35/100, 25/100] (15/100))
        "general" false false).review_percentage = some 100 := by
  have hvar : listVariance [9/10, 1/2, 1/2] = 8/225 := by
    norm_num [listVariance, List.sum_cons, List.sum_nil]
  have hW : weightedAverage [9/10, 1/2, 1/2]
      (normalizeWeights [4/10, 35/100, 25/100]) = 33/50 := by
    norm_num [weightedAverage, normalizeWeights, List.zipWith,
      List.sum_cons, List.sum_nil]
  have hsq : Real.sqrt (8/225) ^ 2 = 8/225 := Real.sq_sqrt (by norm_num)
  have hs0 : 0 ≤ Real.sqrt (8/225) := Real.sqrt_nonneg _
  have hub : Real.sqrt (8/225) < 1886/10000 := by nlinarith
  have hlb : 18856/100000 < Real.sqrt (8/225) := by nlinarith
  have hagg : aggregate_confidences_vw [9/10, 1/2, 1/2] [4/10, 35/100, 25/100]
      (15/100) = 33/50 - (15/100) * Real.sqrt (8/225) := by
    unfold aggregate_confidences_vw aggregate_variance_weighted
    dsimp only
    rw [hW, hvar]
    rw [min_eq_right (by nlinarith), max_eq_right (by nlinarith)]
  refine ⟨hW, hvar, ?_, ?_, ?_, ?_, ?_, ?_⟩
  · rw [hvar, abs_lt]
    constructor <;> norm_num
  · rw [hvar, abs_lt]
    constructor <;> nlinarith
  · rw [hagg, abs_lt]
    constructor <;> nlinarith
  · exact (classify_general_low _ (by rw [hagg]; nlinarith)
      (by rw [hagg]; nlinarith)).1
  · exact (classify_general_low _ (by rw [hagg]; nlinarith)
      (by rw [hagg]; nlinarith)).2.1
  · exact (classify_general_low _ (by rw [hagg]; nlinarith)
      (by rw [hagg]; nlinarith)).2.2

/-! ### TemperatureScaling (`app/services/k_eval/temperature_scaling.py`) -/

/-- `TemperatureScaling.apply_temperature_scaling`: clamp the confidence
into `[1e-7, 1 - 1e-7]`, convert to a logit, divide the logit by the
temperature, and map back through the sigmoid. -/
noncomputable def apply_temperature_scaling (confidence temperature : ℝ) : ℝ :=
  let c := max (1/10^7) (min (1 - 1/10^7) confidence)
  let logit := Real.log (c / (1 - c))
  let scaled_logit := logit / temperature
  1 / (1 + Real.exp (-scaled_logit))

/-- At temperature 1 the sigmoid inverts the logit on `(0,1)`. -/
theorem sigmoid_log_inverse (p : ℝ) (h0 : 0 < p) (h1 : p < 1) :
    1 / (1 + Real.exp (-(Real.log (p / (1 - p)) / 1))) = p := by
  have h1p : (0:ℝ) < 1 - p := by linarith
  have hq : 0 < p / (1 - p) := div_pos h0 h1p
  rw [div_one, Real.exp_neg, Real.exp_log hq, inv_div]
  field_simp

/-- C4 counterexample: at `p = 0` (a probability in `[0,1]`), temperature 1
returns the clamp value `1e-7`, not `0`, so `apply_temperature_scaling` is
not the identity on all of `[0,1]`. -/
theorem apply_temperature_scaling_zero_not_identity :
    apply_temperature_scaling 0 1 = 1/10^7 ∧
    apply_temperature_scaling 0 1 ≠ 0 := by
  have he : apply_temperature_scaling 0 1 = 1/10^7 := by
    unfold apply_temperature_scaling
    dsimp only
    rw [min_eq_right (by norm_num), max_eq_left (by norm_num)]
    exact sigmoid_log_inverse (1/10^7) (by norm_num) (by norm_num)
  exact ⟨he, by rw [he]; norm_num⟩

/-- C4 (amended): temperature 1 is the identity transform on the clamp range
`[1e-7, 1 - 1e-7]`: for every probability there,
`apply_temperature_scaling(p, 1.0) = p`. -/
theorem apply_temperature_scaling_identity (p : ℝ)
    (hlo : 1/10^7 ≤ p) (hhi : p ≤ 1 - 1/10^7) :
    apply_temperature_scaling p 1 = p := by
  have h0 : 0 < p := lt_of_lt_of_le (by norm_num) hlo
  have h1 : p < 1 := lt_of_le_of_lt hhi (by norm_num)
  unfold apply_temperature_scaling
  dsimp only
  rw [min_eq_right hhi, max_eq_right hlo]
  exact sigmoid_log_inverse p h0 h1

/-- C4 witness: the identity observed at the concrete probability `1/2`. -/
theorem apply_temperature_scaling_identity_witness :
    ((1:ℝ)/10^7 ≤ 1/2 ∧ (1:ℝ)/2 ≤ 1 - 1/10^7) ∧
    apply_temperature_scaling (1/2) 1 = 1/2 :=
  ⟨⟨by norm_num, by norm_num⟩,
    apply_temperature_scaling_identity (1/2) (by norm_num) (by norm_num)⟩

/-- `TemperatureScaling._compute_ece` (10 equal-width bins): scale every
confidence by the candidate temperature, bin the scaled values over
`[i/10, (i+1)/10)`, and accumulate `(bin_size/N)·|bin_accuracy −
bin_confidence|` over non-empty bins. -/
noncomputable def compute_ece (confidences correctness : List ℝ)
    (temperature : ℝ) : ℝ :=
  let scaled := confidences.map (fun c => apply_temperature_scaling c temperature)
  let pairs := List.zip scaled correctness
  (List.range 10).foldl
    (fun acc i =>
      let inbin := pairs.filter
        (fun pc => decide ((i : ℝ)/10 ≤ pc.1) && decide (pc.1 < ((i : ℝ)+1)/10))
      if inbin.length = 0 then acc
      else
        acc + ((inbin.length : ℝ) / (confidences.length : ℝ)) *
          |(inbin.map Prod.snd).sum / (inbin.length : ℝ) -
            (inbin.map Prod.fst).sum / (inbin.length : ℝ)|)
    0

/-- `TemperatureScaling._compute_nll`: scale, clip to `[ε, 1−ε]`, and return
the mean binary cross-entropy. -/
noncomputable def compute_nll (confidences correctness : List ℝ)
    (temperature : ℝ) : ℝ :=
  let scaled := confidences.map (fun c =>
    max (1/10^7) (min (1 - 1/10^7) (apply_temperature_scaling c temperature)))
  let pairs := List.zip scaled correctness
  Neg.neg ((pairs.map (fun pc =>
      pc.2 * Real.log pc.1 + (1 - pc.2) * Real.log (1 - pc.1))).sum /
    (pairs.length : ℝ))

/-- The default `search_range` bounds handed to the scalar minimiser. -/
noncomputable def search_range : ℝ × ℝ := (1/2, 5)

/-- `TemperatureScaling.calibrate`, with the external
`scipy.optimize.minimize_scalar` routine abstracted as an oracle mapping an
objective and bounds to the minimiser it reports.  The body has no guard on
the sample lists: the optimizer runs and its result is returned
unconditionally for the `ece` and `nll` methods; any other method name
raises `ValueError`. -/
noncomputable def calibrate
    (minimize_scalar : (ℝ → ℝ) → ℝ × ℝ → ℝ)
    (confidences : List ℝ) (correctness : List ℝ) (method : String) :
    Except String ℝ :=
  if method = "ece" then
    Except.ok (minimize_scalar
      (fun t => compute_ece confidences correctness t) search_range)
  else if method = "nll" then
    Except.ok (minimize_scalar
      (fun t => compute_nll confidences correctness t) search_range)
  else
    Except.error ("Unknown calibration method: " ++ method)

/-- C7 counterexample: `calibrate` has no empty/degenerate short-circuit.
With an optimizer oracle reporting `2`, both the empty sample list and an
all-identical sample list make `calibrate` return `2`, not `1.0`. -/
theorem calibrate_no_short_circuit_counterexample :
    calibrate (fun f r => 2) [] [] "ece" = Except.ok 2 ∧
    calibrate (fun f r => 2) [7/10, 7/10, 7/10] [1, 0, 1] "ece" = Except.ok 2 ∧
    (Except.ok (2:ℝ) : Except String ℝ) ≠ Except.ok 1 := by
  refine ⟨by simp [calibrate], by simp [calibrate], ?_⟩
  intro h
  rw [Except.ok.injEq] at h
  norm_num at h

/-- C7 (amended): `calibrate` performs the bounded minimisation
unconditionally — including on empty or all-identical calibration samples —
and returns exactly the minimiser's argument over the bin-statistics
objective; there is no short-circuit to temperature `1.0`. -/
theorem calibrate_is_minimizer_result
    (minimize_scalar : (ℝ → ℝ) → ℝ × ℝ → ℝ)
    (confidences correctness : List ℝ) :
    calibrate minimize_scalar confidences correctness "ece"
      = Except.ok (minimize_scalar
          (fun t => compute_ece confidences correctness t) search_range) ∧
    calibrate minimize_scalar confidences correctness "nll"
      = Except.ok (minimize_scalar
          (fun t => compute_nll confidences correctness t) search_range) := by
  constructor <;> simp [calibrate]

/-! ### MultiTrackOCR (`app/services/k_ocr/multi_track_ocr.py`) -/

/-- The constructor configuration of `MultiTrackOCR`. -/
structure MTOCRConfig where
  confidence_threshold : ℚ
  text_type_detection_threshold : ℚ
  fallback_enabled : Bool
  model_priority : String
deriving DecidableEq, Repr

/-- The `MultiTrackOCR` defaults: switch threshold `0.70`, detection
threshold `0.75`, fallback enabled, priority model `printed`. -/
def defaultMTOCRConfig : MTOCRConfig :=
  { confidence_threshold := 7/10, text_type_detection_threshold := 3/4,
    fallback_enabled := true, model_priority := "printed" }

/-- One `TrOCREngine.run_inference` outcome (token confidences projected
away). -/
structure InferenceResult where
  text : String
  conf : ℚ
deriving DecidableEq, Repr

/-- The record returned by `MultiTrackOCR.process_region` (tokens and
processing time projected away).  `fallback_confidence` is
`fallback_conf if switched else None`, as in the source. -/
structure OCRRecord where
  text : String
  raw_text : String
  confidence : ℚ
  text_type : String
  text_type_confidence : ℚ
  model_used : String
  primary_model : String
  switched : Bool
  primary_confidence : ℚ
  fallback_confidence : Option ℚ
deriving DecidableEq, Repr

/-- `MultiTrackOCR._select_primary_model`: trust a confident printed or
handwritten classification, otherwise fall back to the priority model. -/
def select_primary_model (cfg : MTOCRConfig) (text_type : String)
    (type_confidence : ℚ) : String :=
  if type_confidence ≥ cfg.text_type_detection_threshold then
    if text_type = "printed" then "printed"
    else if text_type = "handwritten" then "handwritten"
    else cfg.model_priority
  else cfg.model_priority

/-- `MultiTrackOCR.process_region`, with the OCR engine abstracted as a map
from a model type to its inference result on the region image: run the
primary model; when fallback is enabled and the primary confidence is below
`confidence_threshold`, run the alternate model and keep the result with the
strictly higher confidence, marking `switched` only when the alternate
wins. -/
def process_region (cfg : MTOCRConfig) (engine : String → InferenceResult)
    (text_type : String) (type_confidence : ℚ) : OCRRecord :=
  let primary_model := select_primary_model cfg text_type type_confidence
  let primary := engine primary_model
  if cfg.fallback_enabled && decide (primary.conf < cfg.confidence_threshold) then
    let alternate_model := if primary_model = "printed" then "handwritten" else "printed"
    let fallback := engine alternate_model
    if fallback.conf > primary.conf then
      { text := fallback.text, raw_text := primary.text,
        confidence := fallback.conf, text_type := text_type,
        text_type_confidence := type_confidence, model_used := alternate_model,
        primary_model := primary_model, switched := true,
        primary_confidence := primary.conf,
        fallback_confidence := some fallback.conf }
    else
      { text := primary.text, raw_text := primary.text,
        confidence := primary.conf, text_type := text_type,
        text_type_confidence := type_confidence, model_used := primary_model,
        primary_model := primary_model, switched := false,
        primary_confidence := primary.conf, fallback_confidence := none }
  else
    { text := primary.text, raw_text := primary.text,
      confidence := primary.conf, text_type := text_type,
      text_type_confidence := type_confidence, model_used := primary_model,
      primary_model := primary_model, switched := false,
      primary_confidence := primary.conf, fallback_confidence := none }

/-- When the fallback branch is taken (`fallback_enabled` and a primary
confidence below the switch threshold), `process_region` reduces to a
comparison between the two inference results. -/
theorem process_region_fallback_cases (cfg : MTOCRConfig)
    (engine : String → InferenceResult) (text_type : String)
    (type_confidence : ℚ)
    (hfb : cfg.fallback_enabled = true)
    (hlow : (engine (select_primary_model cfg text_type type_confidence)).conf
      < cfg.confidence_threshold) :
    process_region cfg engine text_type type_confidence =
      (if (engine (if select_primary_model cfg text_type type_confidence = "printed"
            then "handwritten" else "printed")).conf
          > (engine (select_primary_model cfg text_type type_confidence)).conf
        then
          { text := (engine (if select_primary_model cfg text_type type_confidence = "printed"
              then "handwritten" else "printed")).text,
            raw_text := (engine (select_primary_model cfg text_type type_confidence)).text,
            confidence := (engine (if select_primary_model cfg text_type type_confidence = "printed"
              then "handwritten" else "printed")).conf,
            text_type := text_type, text_type_confidence := type_confidence,
            model_used := (if select_primary_model cfg text_type type_confidence = "printed"
              then "handwritten" else "printed"),
            primary_model := select_primary_model cfg text_type type_confidence,
            switched := true,
            primary_confidence := (engine (select_primary_model cfg text_type type_confidence)).conf,
            fallback_confidence := some (engine (if select_primary_model cfg text_type type_confidence = "printed"
              then "handwritten" else "printed")).conf }
        else
          { text := (engine (select_primary_model cfg text_type type_confidence)).text,
            raw_text := (engine (select_primary_model cfg text_type type_confidence)).text,
            confidence := (engine (select_primary_model cfg text_type type_confidence)).conf,
            text_type := text_type, text_type_confidence := type_confidence,
            model_used := select_primary_model cfg text_type type_confidence,
            primary_model := select_primary_model cfg text_type type_confidence,
            switched := false,
            primary_confidence := (engine (select_primary_model cfg text_type type_confidence)).conf,
            fallback_confidence := none }) := by
  unfold process_region
  dsimp only
  rw [hfb]
  simp only [Bool.true_and, decide_eq_true_eq]
  rw [if_pos hlow]

/-- An engine whose printed model returns confidence `0.5` and whose
handwritten model returns confidence `0.4`. -/
def engineC9 : String → InferenceResult :=
  fun m => if m = "printed" then { text := "a", conf := 1/2 }
    else { text := "b", conf := 2/5 }

/-- C9 counterexample: with the default config and `engineC9` on a
confidently printed region, the fallback IS invoked (`0.5 < 0.7` with
fallback enabled) but loses (`0.4 ≤ 0.5`), and the returned record carries
`fallback_confidence = none` rather than the fallback's confidence `0.4`:
the record does not contain both confidences. -/
theorem process_region_fallback_lost_counterexample :
    (process_region defaultMTOCRConfig engineC9 "printed" 1).fallback_confidence
      = none ∧
    (process_region defaultMTOCRConfig engineC9 "printed" 1).fallback_confidence
      ≠ some ((engineC9 "handwritten").conf) := by
  have hsel : select_primary_model defaultMTOCRConfig "printed" 1 = "printed" := by
    norm_num [select_primary_model, defaultMTOCRConfig]
  have hlow : (engineC9 (select_primary_model defaultMTOCRConfig "printed" 1)).conf
      < defaultMTOCRConfig.confidence_threshold := by
    rw [hsel]
    simp [engineC9, defaultMTOCRConfig]
    norm_num
  have hcase := process_region_fallback_cases defaultMTOCRConfig engineC9
    "printed" 1 rfl hlow
  rw [hcase, if_neg]
  · exact ⟨rfl, by simp⟩
  · rw [hsel]
    simp [engineC9]
    norm_num

/-- C9 (amended): whenever the fallback model is invoked (fallback enabled,
primary confidence below the switch threshold), the record always carries
the primary confidence, but carries the fallback confidence only when the
fallback strictly won (`switched = true`); when the primary result is kept,
`fallback_confidence` is `None`. -/
theorem process_region_fallback_confidences (cfg : MTOCRConfig)
    (engine : String → InferenceResult) (text_type : String)
    (type_confidence : ℚ)
    (hfb : cfg.fallback_enabled = true)
    (hlow : (engine (select_primary_model cfg text_type type_confidence)).conf
      < cfg.confidence_threshold) :
    (process_region cfg engine text_type type_confidence).primary_confidence
      = (engine (select_primary_model cfg text_type type_confidence)).conf ∧
    (process_region cfg engine text_type type_confidence).fallback_confidence
      = (if (engine (if select_primary_model cfg text_type type_confidence = "printed"
              then "handwritten" else "printed")).conf
            > (engine (select_primary_model cfg text_type type_confidence)).conf
          then some ((engine (if select_primary_model cfg text_type type_confidence = "printed"
              then "handwritten" else "printed")).conf)
          else none) ∧
    (process_region cfg engine text_type type_confidence).switched
      = decide ((engine (if select_primary_model cfg text_type type_confidence = "printed"
              then "handwritten" else "printed")).conf
            > (engine (select_primary_model cfg text_type type_confidence)).conf) := by
  rw [process_region_fallback_cases cfg engine text_type type_confidence hfb hlow]
  split_ifs <;> simp_all

/-- An engine whose printed model returns confidence `0.5` and whose
handwritten model returns confidence `0.8`. -/
def engineC9win : String → InferenceResult :=
  fun m => if m = "printed" then { text := "a", conf := 1/2 }
    else { text := "b", conf := 4/5 }

/-- C9 witness: a fallback-invoked run under the default configuration
(primary printed at `0.5`, so the fallback runs). -/
theorem process_region_fallback_confidences_witness :
    (defaultMTOCRConfig.fallback_enabled = true ∧
      (engineC9win (select_primary_model defaultMTOCRConfig "printed" 1)).conf
        < defaultMTOCRConfig.confidence_threshold) ∧
    (process_region defaultMTOCRConfig engineC9win "printed" 1).primary_confidence
      = (engineC9win (select_primary_model defaultMTOCRConfig "printed" 1)).conf ∧
    (process_region defaultMTOCRConfig engineC9win "printed" 1).fallback_confidence
      = (if (engineC9win (if select_primary_model defaultMTOCRConfig "printed" 1 = "printed"
              then "handwritten" else "printed")).conf
            > (engineC9win (select_primary_model defaultMTOCRConfig "printed" 1)).conf
          then some ((engineC9win (if select_primary_model defaultMTOCRConfig "printed" 1 = "printed"
              then "handwritten" else "printed")).conf)
          else none) ∧
    (process_region defaultMTOCRConfig engineC9win "printed" 1).switched
      = decide ((engineC9win (if select_primary_model defaultMTOCRConfig "printed" 1 = "printed"
              then "handwritten" else "printed")).conf
            > (engineC9win (select_primary_model defaultMTOCRConfig "printed" 1)).conf) :=
  ⟨⟨rfl, by
      norm_num [select_primary_model, defaultMTOCRConfig]
      simp [engineC9win]
      norm_num⟩,
    process_region_fallback_confidences defaultMTOCRConfig engineC9win "printed" 1 rfl
      (by
        norm_num [select_primary_model, defaultMTOCRConfig]
        simp [engineC9win]
        norm_num)⟩
